import Mathlib

/-!
Verification of the `/tts` endpoint of the text-to-speech gateway
(`src/main.py`).

The handler is embedded shallowly:

* `TTSRequest` mirrors the pydantic model `TTSRequest` (`text : str`,
  `lang : str = "ar-EG-ShakirNeural"`).
* The filesystem's temporary-storage area is an association list from
  paths to byte lists; `NamedTemporaryFile(delete=False)` is modelled by
  writing an empty file at a fresh path derived from a per-state counter.
* The external synthesis collaborator (`edge_tts.Communicate(...).save`)
  is an opaque parameter mapping `(text, voice)` either to the bytes it
  writes at the given path or to a raised exception's message string.
* `raise HTTPException(status, detail)` and `FileResponse` become the
  constructors of `Response`; the handler body `tts` is a pure function
  from the collaborator, the parsed request and the system state to a
  result recording the response, the new state and the list of argument
  pairs passed to the collaborator.
* FastAPI's request-model validation step (pydantic) is modelled by
  `validateTTSRequest` over a small JSON value type, and the full
  route pipeline by `handlePost`.
-/

/-- A byte sequence (file contents, audio bytes). -/
abbrev Bytes := List Nat

/-- A filesystem path. -/
abbrev FPath := String

/-- The temporary-storage area: an association list from paths to contents.
A write shadows earlier entries for the same path; nothing is ever removed. -/
abbrev FS := List (FPath × Bytes)

/-- Write `b` at path `p` (newest entry first). -/
def FS.write (fs : FS) (p : FPath) (b : Bytes) : FS := (p, b) :: fs

/-- Read the current contents at path `p`, if the file exists. -/
def FS.read : FS → FPath → Option Bytes
  | [], _ => none
  | (q, b) :: rest, p => if q = p then some b else FS.read rest p

/-- System state threaded through a request: the temp-storage filesystem and
a counter from which `NamedTemporaryFile` derives its fresh unique name. -/
structure SysState where
  fs : FS
  nextTmp : Nat
deriving Repr, DecidableEq

/-- The unique name `NamedTemporaryFile(delete=False, suffix=".mp3")`
produces for counter value `n`. -/
def freshTmpPath (n : Nat) : FPath := "/tmp/tmp" ++ toString n ++ ".mp3"

/-- Python's `str.strip()` whitespace set (ASCII part). -/
def isPySpace (c : Char) : Bool :=
  c = ' ' || c = '\t' || c = '\n' || c = '\r' || c = '\x0b' || c = '\x0c'

/-- Python's `str.strip()`: surrounding whitespace removed from both ends. -/
def pyStrip (s : String) : String :=
  ⟨((s.data.dropWhile isPySpace).reverse.dropWhile isPySpace).reverse⟩

/-- The parsed request body: pydantic model `TTSRequest`
(`text : str`, `lang : str = "ar-EG-ShakirNeural"`). -/
structure TTSRequest where
  text : String
  lang : String := "ar-EG-ShakirNeural"
deriving Repr, DecidableEq

/-- The external synthesis collaborator: given `(text, voice)` it either
signals an exception (its stringified message) or produces the audio bytes
it writes to the file path it was given. -/
abbrev Collaborator := String → String → Except String Bytes

/-- The handler's HTTP response: either a `FileResponse`
(status 200, media type, attachment filename, served body bytes) or a
raised `HTTPException` (status code, detail message). -/
inductive Response where
  | file (status : Nat) (mediaType : String) (filename : String) (body : Bytes)
  | error (status : Nat) (detail : String)
deriving Repr, DecidableEq

/-- Result of running the handler body: the response, the final system
state, and the list of `(text, voice)` argument pairs the collaborator
was invoked with. -/
structure TTSResult where
  resp : Response
  st : SysState
  invoked : List (String × String)
deriving Repr, DecidableEq

/-- The handler body of `POST /tts` (function `tts` in `src/main.py`):
reject empty trimmed text with 400 before anything else; otherwise create
the temp file, invoke the collaborator once, and either translate its
exception into a 500 or serve the produced file as `audio/mpeg` named
`tts.mp3`. -/
def tts (collab : Collaborator) (req : TTSRequest) (st : SysState) : TTSResult :=
  if pyStrip req.text = "" then
    { resp := .error 400 "Text is empty", st := st, invoked := [] }
  else
    let tmpPath := freshTmpPath st.nextTmp
    let fs1 := FS.write st.fs tmpPath []
    match collab req.text req.lang with
    | .error e =>
        { resp := .error 500 e,
          st := { fs := fs1, nextTmp := st.nextTmp + 1 },
          invoked := [(req.text, req.lang)] }
    | .ok bytes =>
        let fs2 := FS.write fs1 tmpPath bytes
        { resp := .file 200 "audio/mpeg" "tts.mp3" ((FS.read fs2 tmpPath).getD []),
          st := { fs := fs2, nextTmp := st.nextTmp + 1 },
          invoked := [(req.text, req.lang)] }

/-- A JSON value, as far as the request body model needs. -/
inductive JValue where
  | str (s : String)
  | num (n : Int)
  | boolean (b : Bool)
  | null
deriving Repr, DecidableEq

/-- An inbound JSON request body: each field of `TTSRequest` either absent
or bound to some JSON value. -/
structure Body where
  text : Option JValue := none
  lang : Option JValue := none
deriving Repr, DecidableEq

/-- Pydantic validation of the body against `TTSRequest`
(`text : str` required, `lang : str` defaulting to the Arabic voice):
a missing or non-string `text` (or a non-string `lang`) is a validation
error; otherwise the parsed request. -/
def validateTTSRequest (b : Body) : Except String TTSRequest :=
  match b.text with
  | none => .error "text: Field required"
  | some (JValue.str t) =>
    match b.lang with
    | none => .ok { text := t, lang := "ar-EG-ShakirNeural" }
    | some (JValue.str l) => .ok { text := t, lang := l }
    | some _ => .error "lang: Input should be a valid string"
  | some _ => .error "text: Input should be a valid string"

/-- Outcome of the whole route: either FastAPI's request-validation
rejection (sent without running the handler body) or the handler's
response. -/
inductive PostResult where
  | validationError (msg : String)
  | handled (r : Response)
deriving Repr, DecidableEq

/-- Result of the full route pipeline. -/
structure HandleResult where
  resp : PostResult
  st : SysState
  invoked : List (String × String)
deriving Repr, DecidableEq

/-- The full `POST /tts` pipeline: pydantic validation, then the handler
body. -/
def handlePost (collab : Collaborator) (b : Body) (st : SysState) : HandleResult :=
  match validateTTSRequest b with
  | .error m => { resp := .validationError m, st := st, invoked := [] }
  | .ok req =>
      let r := tts collab req st
      { resp := .handled r.resp, st := r.st, invoked := r.invoked }

/-- The CORS middleware configuration. -/
structure CORSConfig where
  allow_origins : List String
  allow_credentials : Bool
  allow_methods : List String
  allow_headers : List String
deriving Repr, DecidableEq

/-- The configuration installed by `app.add_middleware(CORSMiddleware, ...)`
in `src/main.py`. -/
def corsMiddleware : CORSConfig :=
  { allow_origins := ["http://localhost:3000"]
    allow_credentials := true
    allow_methods := ["*"]
    allow_headers := ["*"] }

/-- Whether the configuration permits origin `o`: listed explicitly, or
everything via the wildcard. -/
def CORSConfig.allowsOrigin (c : CORSConfig) (o : String) : Bool :=
  c.allow_origins.contains "*" || c.allow_origins.contains o

/-- Whether the configuration permits HTTP method `m`. -/
def CORSConfig.allowsMethod (c : CORSConfig) (m : String) : Bool :=
  c.allow_methods.contains "*" || c.allow_methods.contains m

/-- Whether the configuration permits request header `h`. -/
def CORSConfig.allowsHeader (c : CORSConfig) (h : String) : Bool :=
  c.allow_headers.contains "*" || c.allow_headers.contains h

/-- A stub collaborator that always succeeds with fixed bytes. -/
def collabOk : Collaborator := fun _ _ => .ok [1, 2, 3]

/-- A stub collaborator that always fails with a fixed message. -/
def collabFail : Collaborator := fun _ _ => .error "network timeout"

/-- A pristine initial state: empty temp storage, counter 0. -/
def st0 : SysState := { fs := [], nextTmp := 0 }

/-- Reading back a freshly written path yields exactly the written bytes. -/
theorem FS.read_write (fs : FS) (p : FPath) (b : Bytes) :
    FS.read (FS.write fs p b) p = some b := by
  simp [FS.read, FS.write]

/-- Writing at one path does not remove any other file. -/
theorem FS.read_write_isSome (fs : FS) (p q : FPath) (b : Bytes) :
    (FS.read fs q).isSome → (FS.read (FS.write fs p b) q).isSome := by
  intro h
  by_cases hpq : p = q
  · subst hpq; simp [FS.read, FS.write]
  · simpa [FS.read, FS.write, hpq] using h

/-- A state whose temp storage already holds one earlier file. -/
def st1 : SysState := { fs := [("/tmp/old.mp3", [9])], nextTmp := 5 }

/-- Whether the body carries a present, string-typed `text` field. -/
def Body.textIsString (b : Body) : Bool :=
  match b.text with
  | some (JValue.str _) => true
  | _ => false

/-- Whether a route outcome is a request-validation rejection. -/
def PostResult.isValidationError : PostResult → Bool
  | .validationError _ => true
  | .handled _ => false

/-- An entry present in the filesystem can be read (at its own key). -/
theorem FS.read_mem_isSome (fs : FS) (pr : FPath × Bytes) (h : pr ∈ fs) :
    (FS.read fs pr.1).isSome := by
  induction fs with
  | nil => cases h
  | cons hd tl ih =>
    obtain ⟨q, c⟩ := hd
    by_cases hq : q = pr.1
    · simp [FS.read, hq]
    · rcases List.mem_cons.mp h with h | h
      · exact absurd (congrArg Prod.fst h.symm) hq
      · simpa [FS.read, hq] using ih h

/-- Every argument pair handed to the collaborator carries the request's
`lang` as the voice. -/
theorem tts_invoked_voice (collab : Collaborator) (req : TTSRequest) (st : SysState) :
    (tts collab req st).invoked.all (fun p => p.2 == req.lang) = true := by
  unfold tts
  by_cases h : pyStrip req.text = ""
  · simp [h]
  · cases hc : collab req.text req.lang <;> simp [h, hc]

/-- C1: a request whose `text` strips to empty gets exactly the 400
"Text is empty" rejection; the collaborator is never invoked and the
state is untouched. -/
theorem tts_empty_text (collab : Collaborator) (req : TTSRequest) (st : SysState)
    (h : pyStrip req.text = "") :
    tts collab req st =
      { resp := .error 400 "Text is empty", st := st, invoked := [] } := by
  simp [tts, h]

/-- Witness for C1 at the all-whitespace input `"  \t "`. -/
theorem tts_empty_text_witness :
    tts collabOk { text := "  \t " } st0 =
      { resp := .error 400 "Text is empty", st := st0, invoked := [] } :=
  tts_empty_text collabOk { text := "  \t " } st0 (by decide)

/-- C2: with non-empty stripped text and a succeeding collaborator, the
response is a 200 `audio/mpeg` file named `tts.mp3` whose body is
byte-identical to what the collaborator wrote to the temporary file. -/
theorem tts_success (collab : Collaborator) (req : TTSRequest) (st : SysState)
    (bytes : Bytes) (hne : pyStrip req.text ≠ "")
    (hok : collab req.text req.lang = .ok bytes) :
    (tts collab req st).resp = .file 200 "audio/mpeg" "tts.mp3" bytes ∧
    FS.read (tts collab req st).st.fs (freshTmpPath st.nextTmp) = some bytes := by
  simp [tts, hne, hok, FS.read_write]

/-- Witness for C2: `"Hello"` with a stub collaborator writing `[1,2,3]`. -/
theorem tts_success_witness :
    (tts collabOk { text := "Hello", lang := "en-US-GuyNeural" } st0).resp =
      .file 200 "audio/mpeg" "tts.mp3" [1, 2, 3] ∧
    FS.read (tts collabOk { text := "Hello", lang := "en-US-GuyNeural" } st0).st.fs
      (freshTmpPath st0.nextTmp) = some [1, 2, 3] :=
  tts_success collabOk { text := "Hello", lang := "en-US-GuyNeural" } st0
    [1, 2, 3] (by decide) rfl

/-- C3: when the collaborator raises, the response is a 500 whose detail is
the stringified exception, and the collaborator was invoked exactly once
(so at most once, with no retry). -/
theorem tts_collab_error (collab : Collaborator) (req : TTSRequest) (st : SysState)
    (e : String) (hne : pyStrip req.text ≠ "")
    (herr : collab req.text req.lang = .error e) :
    (tts collab req st).resp = .error 500 e ∧
    (tts collab req st).invoked = [(req.text, req.lang)] ∧
    (tts collab req st).invoked.length ≤ 1 := by
  simp [tts, hne, herr]

/-- Witness for C3: a stub collaborator raising `"network timeout"`. -/
theorem tts_collab_error_witness :
    (tts collabFail { text := "Hello" } st0).resp = .error 500 "network timeout" ∧
    (tts collabFail { text := "Hello" } st0).invoked =
      [("Hello", "ar-EG-ShakirNeural")] ∧
    (tts collabFail { text := "Hello" } st0).invoked.length ≤ 1 :=
  tts_collab_error collabFail { text := "Hello" } st0 "network timeout"
    (by decide) rfl

/-- C4: when the body omits `lang`, every argument pair handed to the
collaborator carries exactly the default voice `ar-EG-ShakirNeural`. -/
theorem handlePost_default_lang (collab : Collaborator) (b : Body) (st : SysState)
    (hlang : b.lang = none) :
    (handlePost collab b st).invoked.all
      (fun p => p.2 == "ar-EG-ShakirNeural") = true := by
  cases hb : b.text with
  | none => simp [handlePost, validateTTSRequest, hb]
  | some v =>
    cases v with
    | str t =>
      have hv : validateTTSRequest b = .ok { text := t, lang := "ar-EG-ShakirNeural" } := by
        simp [validateTTSRequest, hb, hlang]
      simpa [handlePost, hv] using
        tts_invoked_voice collab { text := t, lang := "ar-EG-ShakirNeural" } st
    | num n => simp [handlePost, validateTTSRequest, hb]
    | boolean bo => simp [handlePost, validateTTSRequest, hb]
    | null => simp [handlePost, validateTTSRequest, hb]

/-- Witness for C4: a body with `text = "Hello"` and no `lang` field. -/
theorem handlePost_default_lang_witness :
    (handlePost collabOk { text := some (JValue.str "Hello") } st0).invoked.all
      (fun p => p.2 == "ar-EG-ShakirNeural") = true :=
  handlePost_default_lang collabOk { text := some (JValue.str "Hello") } st0 rfl

/-- C5: every run of the handler ends in exactly one of the three outcomes:
the 400 validation rejection, a 500 carrying the collaborator's error, or
a 200 success serving the collaborator's bytes; this holds for every
`text`, however large, because the collaborator's exception is always
caught. -/
theorem tts_trichotomy (collab : Collaborator) (req : TTSRequest) (st : SysState) :
    (pyStrip req.text = "" ∧
      (tts collab req st).resp = .error 400 "Text is empty") ∨
    (∃ e, collab req.text req.lang = .error e ∧
      (tts collab req st).resp = .error 500 e) ∨
    (∃ b, collab req.text req.lang = .ok b ∧
      (tts collab req st).resp = .file 200 "audio/mpeg" "tts.mp3" b) := by
  by_cases h : pyStrip req.text = ""
  · exact Or.inl ⟨h, by simp [tts, h]⟩
  · cases hc : collab req.text req.lang with
    | error e => exact Or.inr (Or.inl ⟨e, rfl, by simp [tts, h, hc]⟩)
    | ok b => exact Or.inr (Or.inr ⟨b, rfl, by simp [tts, h, hc, FS.read_write]⟩)

/-- Counterexample to C6 as stated: the all-whitespace request is rejected
by the empty-text validation and leaves temp storage empty — no temporary
file is created for it. -/
theorem tts_rejected_creates_no_file :
    (tts collabOk { text := "   " } st0).st.fs = [] ∧
    (tts collabOk { text := "   " } st0).resp = .error 400 "Text is empty" := by
  decide

/-- C6 (amended): every request that passes the empty-text validation
creates a file in the shared temp storage — the fresh temporary path is
readable afterwards and the storage strictly grew — and the handler never
deletes it. -/
theorem tts_file_created (collab : Collaborator) (req : TTSRequest) (st : SysState)
    (hne : pyStrip req.text ≠ "") :
    (FS.read (tts collab req st).st.fs (freshTmpPath st.nextTmp)).isSome = true ∧
    st.fs.length < (tts collab req st).st.fs.length := by
  cases hc : collab req.text req.lang with
  | error e => simp [tts, hne, hc, FS.read, FS.write]
  | ok b =>
    refine ⟨by simp [tts, hne, hc, FS.read, FS.write], ?_⟩
    simp [tts, hne, hc, FS.write]
    omega

/-- Witness for C6 (amended) at `"Hello"` over the pristine state. -/
theorem tts_file_created_witness :
    (FS.read (tts collabOk { text := "Hello" } st0).st.fs
      (freshTmpPath st0.nextTmp)).isSome = true ∧
    st0.fs.length < (tts collabOk { text := "Hello" } st0).st.fs.length :=
  tts_file_created collabOk { text := "Hello" } st0 (by decide)

/-- C7: once the temp file is acquired, it still exists in temp storage
after the handler's outcome — success or synthesis error — and no file
that existed before the request is gone afterwards (the handler deletes
nothing). -/
theorem tts_never_deletes (collab : Collaborator) (req : TTSRequest) (st : SysState)
    (hne : pyStrip req.text ≠ "") :
    (FS.read (tts collab req st).st.fs (freshTmpPath st.nextTmp)).isSome = true ∧
    st.fs.all
      (fun pr => (FS.read (tts collab req st).st.fs pr.1).isSome) = true := by
  constructor
  · cases hc : collab req.text req.lang with
    | error e => simp [tts, hne, hc, FS.read_write]
    | ok b => simp [tts, hne, hc, FS.read_write]
  · rw [List.all_eq_true]
    intro pr hpr
    have hbase : (FS.read st.fs pr.1).isSome = true :=
      FS.read_mem_isSome st.fs pr hpr
    cases hc : collab req.text req.lang with
    | error e =>
      simpa [tts, hne, hc] using
        FS.read_write_isSome st.fs (freshTmpPath st.nextTmp) pr.1 [] hbase
    | ok b =>
      simpa [tts, hne, hc] using
        FS.read_write_isSome _ (freshTmpPath st.nextTmp) pr.1 b
          (FS.read_write_isSome st.fs (freshTmpPath st.nextTmp) pr.1 [] hbase)

/-- Witness for C7: failing collaborator over a state already holding one
file; both the fresh temp file and the pre-existing file survive. -/
theorem tts_never_deletes_witness :
    (FS.read (tts collabFail { text := "Hello" } st1).st.fs
      (freshTmpPath st1.nextTmp)).isSome = true ∧
    st1.fs.all
      (fun pr => (FS.read (tts collabFail { text := "Hello" } st1).st.fs
        pr.1).isSome) = true :=
  tts_never_deletes collabFail { text := "Hello" } st1 (by decide)

/-- C8: the CORS configuration permits exactly the one origin
`http://localhost:3000`, every HTTP method, every header, and
credentialed requests. -/
theorem cors_localhost_only :
    corsMiddleware.allow_origins = ["http://localhost:3000"] ∧
    (∀ o, corsMiddleware.allowsOrigin o = (o == "http://localhost:3000")) ∧
    (∀ m, corsMiddleware.allowsMethod m = true) ∧
    (∀ hd, corsMiddleware.allowsHeader hd = true) ∧
    corsMiddleware.allow_credentials = true := by
  refine ⟨rfl, ?_, ?_, ?_, rfl⟩
  · intro o
    by_cases h : o = "http://localhost:3000" <;>
      simp [CORSConfig.allowsOrigin, corsMiddleware, List.contains, h]
  · intro m; simp [CORSConfig.allowsMethod, corsMiddleware]
  · intro hd; simp [CORSConfig.allowsHeader, corsMiddleware]

/-- C9: a body whose `text` field is missing or not a string is stopped by
request-model validation: the handler body never runs, so the collaborator
is not invoked and no temporary file is created, and the outcome is a
validation rejection distinct from the 400 "Text is empty" response. -/
theorem handlePost_invalid_text (collab : Collaborator) (b : Body) (st : SysState)
    (h : Body.textIsString b = false) :
    (handlePost collab b st).resp.isValidationError = true ∧
    (handlePost collab b st).st = st ∧
    (handlePost collab b st).invoked = [] ∧
    (handlePost collab b st).resp ≠ .handled (.error 400 "Text is empty") := by
  cases hb : b.text with
  | none =>
    simp [handlePost, validateTTSRequest, hb, PostResult.isValidationError]
  | some v =>
    cases v with
    | str t => simp [Body.textIsString, hb] at h
    | num n =>
      simp [handlePost, validateTTSRequest, hb, PostResult.isValidationError]
    | boolean bo =>
      simp [handlePost, validateTTSRequest, hb, PostResult.isValidationError]
    | null =>
      simp [handlePost, validateTTSRequest, hb, PostResult.isValidationError]

/-- Witness for C9: a body carrying a numeric `text`. -/
theorem handlePost_invalid_text_witness :
    (handlePost collabOk { text := some (JValue.num 5) } st0).resp.isValidationError
      = true ∧
    (handlePost collabOk { text := some (JValue.num 5) } st0).st = st0 ∧
    (handlePost collabOk { text := some (JValue.num 5) } st0).invoked = [] ∧
    (handlePost collabOk { text := some (JValue.num 5) } st0).resp ≠
      .handled (.error 400 "Text is empty") :=
  handlePost_invalid_text collabOk { text := some (JValue.num 5) } st0 rfl

/-- C10: the response and the collaborator-invocation record depend only on
the request's `text` and `lang` and on the collaborator — two runs from any
two system states (hence any two generated temp-file names) produce the
same observable outcome. -/
theorem tts_deterministic (collab : Collaborator) (req : TTSRequest)
    (s1 s2 : SysState) :
    (tts collab req s1).resp = (tts collab req s2).resp ∧
    (tts collab req s1).invoked = (tts collab req s2).invoked := by
  by_cases h : pyStrip req.text = ""
  · simp [tts, h]
  · cases hc : collab req.text req.lang <;>
      simp [tts, h, hc, FS.read_write]
